import Mathlib

/-!
Verification of the QR-scan session tracker (`prodtrac.py`) of the
SSD1306RRS_reader repository.

The Python source is embedded shallowly: per-port mutable dictionaries become
explicit state records, `datetime` instants become natural-number seconds,
fallible persistence calls become boolean environment flags, and functions
that can raise return explicit outcome values.  All definitions are
translated from the source file `src/prodtrac.py`; line numbers in doc
comments refer to it.
-/

namespace Prodtrac

/-- The four session status constants (prodtrac.py lines 120-123):
`STATUS_WORKING`, `STATUS_WAITING`, `STATUS_ENDED`, `STATUS_RETRY`. -/
inductive Status where
  | working
  | waiting
  | ended
  | retry
deriving DecidableEq, Repr

/-- Per-port session state: the fields of `current_state[port]` initialised by
`init_current_state` (lines 320-335) that the verified handlers read or
write.  The LCD device handle is outside the model. -/
structure PortState where
  status : Status
  worker_cd : Option String
  worker2_cd : Option String
  process_cd : Option String
  qr_cd : Option String
  worker_lcd : String
  worker2_lcd : String
  process_lcd : String
  check_no : Option String
  check_no_lcd : String
  start_time : Option Nat
  timer : String
  rework_status : Option String
  show_blink : Bool
deriving DecidableEq, Repr

/-- Per-port pair-work state: `pair_state[port]` as initialised by
`init_pair_state_for_port` (lines 348-353).  The unused
`waiting_second_qr` flag is omitted (never read). -/
structure PairState where
  pair_mode : Bool
  last_worker_ts : Option Nat
  recent_workers : List String
deriving DecidableEq, Repr

/-- `init_current_state` (lines 320-335): fresh session state for a port. -/
def init_current_state : PortState :=
  { status := Status.waiting
    worker_cd := none
    worker2_cd := none
    process_cd := none
    qr_cd := none
    worker_lcd := ""
    worker2_lcd := ""
    process_lcd := ""
    check_no := none
    check_no_lcd := "      "
    start_time := none
    timer := "00:00"
    rework_status := none
    show_blink := false }

/-- `init_pair_state_for_port` (lines 348-353). -/
def init_pair_state_for_port : PairState :=
  { pair_mode := false, last_worker_ts := none, recent_workers := [] }

/-- Zero-padded two-digit rendering of one component of f-string
`f"{mm:02}:{ss:02}"`. -/
def pad2 (n : Nat) : String :=
  if n < 10 then "0" ++ toString n else toString n

/-- The `mm:ss` timer string built from an elapsed number of seconds,
as in `divmod(elapsed, 60)` followed by `f"{mm:02}:{ss:02}"`. -/
def fmt_timer (elapsed : Nat) : String :=
  pad2 (elapsed / 60) ++ ":" ++ pad2 (elapsed % 60)

/-! ## Field extraction (`extract_field`, `extract_info`, lines 780-890) -/

/-- `extract_field(qr_code, start, length)` (lines 780-809): the slice
`qr_code[start:start+length]` when the input is long enough, else `None`. -/
def extract_field (qr : String) (start length : Nat) : Option String :=
  if start + length ≤ qr.data.length then
    some (String.mk ((qr.data.drop start).take length))
  else
    none

/-- One entry of the `field_mappings` table in `extract_info`
(lines 821-843): either a single `(start, length)` pair or, as for
`check_no`, a list of pairs whose extracts are concatenated. -/
inductive FieldSpec where
  | single : Nat → Nat → FieldSpec
  | multi : List (Nat × Nat) → FieldSpec
deriving DecidableEq, Repr

/-- The `field_mappings` table of `extract_info` (lines 821-843). -/
def field_mappings : List (String × FieldSpec) :=
  [("seisan_tehai_no", FieldSpec.single 0 12),
   ("seisan_tehai_sub_no", FieldSpec.single 12 3),
   ("juchu_no", FieldSpec.single 81 11),
   ("check_no", FieldSpec.multi [(45, 5), (20, 6)]),
   ("daisu_no", FieldSpec.single 27 7),
   ("kyoten_cd", FieldSpec.single 39 6),
   ("seisakusho_fuka_cd", FieldSpec.single 45 6),
   ("seisakusho_mae_cd", FieldSpec.single 69 6),
   ("seisakusho_ato_cd", FieldSpec.single 45 6),
   ("shohingun_cd", FieldSpec.single 51 1),
   ("seisanbi", FieldSpec.single 52 6),
   ("seisan_check_sub_no", FieldSpec.single 58 3),
   ("shukkabi", FieldSpec.single 61 6),
   ("shukka_basho", FieldSpec.single 67 2),
   ("hontai_kbn", FieldSpec.single 92 1),
   ("hinmei", FieldSpec.single 105 23),
   ("width", FieldSpec.single 127 5),
   ("height", FieldSpec.single 132 5),
   ("honseki_cd", FieldSpec.single 152 4),
   ("model_cd", FieldSpec.single 125 2),
   ("db_bunrui_cd", FieldSpec.single 256 3)]

/-- Value computed for one field by the loop at lines 848-857: a single
field keeps the raw `extract_field` result (possibly `None`); a multi
field joins the non-`None` extracts (`"".join(filter(None, substrings))`). -/
def field_value (qr : String) : FieldSpec → Option String
  | FieldSpec.single s l => extract_field qr s l
  | FieldSpec.multi parts =>
      some (String.join ((parts.map (fun p => extract_field qr p.1 p.2)).filterMap id))

/-- `expect_len` of the loop at lines 852-855. -/
def expect_len : FieldSpec → Nat
  | FieldSpec.single _ l => l
  | FieldSpec.multi parts => (parts.map (fun p => p.2)).sum

/-- `got_len = len(field_value) if field_value else 0` (line 858). -/
def got_len : Option String → Nat
  | some s => s.data.length
  | none => 0

/-- The per-key extracted data dictionary built by the loop at
lines 845-857 (before the `seisanbi_dt` / `qr_cd` keys are added). -/
def extract_data (qr : String) : List (String × Option String) :=
  field_mappings.map (fun ks => (ks.1, field_value qr ks.2))

/-- The `valid` flag after the length-checking loop (lines 846-862): every
field must come back at exactly its expected length. -/
def fields_len_ok (qr : String) : Bool :=
  field_mappings.all (fun ks => got_len (field_value qr ks.2) == expect_len ks.2)

/-- Digits of a numeral read left to right. -/
def digits_to_nat (cs : List Char) : Nat :=
  cs.foldl (fun a c => a * 10 + (c.toNat - 48)) 0

/-- Gregorian leap-year rule used by `datetime.date`. -/
def is_leap (y : Nat) : Bool :=
  (y % 4 == 0 && y % 100 != 0) || (y % 400 == 0)

/-- Days in a month of the proleptic Gregorian calendar. -/
def days_in_month (y m : Nat) : Nat :=
  if m = 2 then (if is_leap y then 29 else 28)
  else if m = 4 ∨ m = 6 ∨ m = 9 ∨ m = 11 then 30
  else 31

/-- Embeds `datetime.strptime(seisanbi, "%y%m%d").date()` (line 868): six
digits, two-digit year with the POSIX pivot (00-68 maps to 20xx, 69-99 to
19xx), and a calendar-valid month/day; on any violation the call raises and
the source sets `valid = False`, modelled here by `none`. -/
def parse_yymmdd (s : String) : Option (Nat × Nat × Nat) :=
  let cs := s.data
  if cs.length = 6 ∧ cs.all (fun c => c.isDigit) then
    let yy := digits_to_nat (cs.take 2)
    let mm := digits_to_nat ((cs.drop 2).take 2)
    let dd := digits_to_nat (cs.drop 4)
    let year := if yy ≤ 68 then 2000 + yy else 1900 + yy
    if 1 ≤ mm ∧ mm ≤ 12 ∧ 1 ≤ dd ∧ dd ≤ days_in_month year mm then
      some (year, mm, dd)
    else none
  else none

/-- The `field_constraints` table of `validate_extracted_data`
(lines 926-951). -/
def field_constraints : List (String × Nat) :=
  [("worker_cd", 10), ("process_cd", 5), ("seisan_tehai_no", 12),
   ("seisan_tehai_sub_no", 3), ("juchu_no", 11), ("check_no", 13),
   ("daisu_no", 7), ("kyoten_cd", 6), ("seisakusho_fuka_cd", 6),
   ("seisakusho_mae_cd", 6), ("seisakusho_ato_cd", 6), ("shohingun_cd", 1),
   ("seisanbi", 6), ("seisan_check_sub_no", 3), ("shukkabi", 6),
   ("shukka_basho", 2), ("hontai_kbn", 1), ("hinmei", 23), ("width", 5),
   ("height", 5), ("honseki_cd", 4), ("model_cd", 2), ("db_bunrui_cd", 3),
   ("qr_cd", 400)]

/-- `sval = "" if value is None else str(value)` then `len(sval)`
(lines 955-956): a missing key or a `None` value counts as length 0. -/
def constraint_len (data : List (String × Option String)) (key : String) : Nat :=
  match List.lookup key data with
  | some (some v) => v.data.length
  | some none => 0
  | none => 0

/-- `validate_extracted_data` (lines 894-965): payloads of at most 32
characters skip validation; longer ones must satisfy every entry of
`field_constraints`. -/
def validate_extracted_data (qr : String) (data : List (String × Option String)) : Bool :=
  if qr.data.length ≤ 32 then
    true
  else
    field_constraints.all (fun kc => decide (constraint_len data kc.1 ≤ kc.2))

/-- Result of `extract_info` (lines 813-890).  On a format or validation
error the source calls `handle_error_qr("E05", qr_code)` (line 884) — but
`handle_error_qr` (line 2745) takes six required positional arguments, so
that call raises `TypeError`; the `return None` on line 885 is unreachable.
`raiseArityError` models the escaping `TypeError`. -/
inductive ExtractResult where
  | ok : List (String × Option String) → Option (Nat × Nat × Nat) → ExtractResult
  | raiseArityError : ExtractResult
deriving DecidableEq, Repr

/-- `ExtractResult.ok` recogniser. -/
def ExtractResult.isOk : ExtractResult → Bool
  | ExtractResult.ok _ _ => true
  | ExtractResult.raiseArityError => false

/-- `extract_info` (lines 813-890): extract every field, convert `seisanbi`,
append the raw payload under `qr_cd`, and either return the data or fail
(fail = the stale-arity `handle_error_qr` call raising `TypeError`). -/
def extract_info (qr : String) : ExtractResult :=
  let data := extract_data qr
  let seisanbi := (field_value qr (FieldSpec.single 52 6)).getD ""
  let dt := if seisanbi == "" then none else parse_yymmdd seisanbi
  let valid := fields_len_ok qr && (seisanbi == "" || (parse_yymmdd seisanbi).isSome)
  let dataFull := data ++ [("qr_cd", some qr)]
  if valid && validate_extracted_data qr dataFull then
    ExtractResult.ok dataFull dt
  else
    ExtractResult.raiseArityError

/-! ## QR classification (`process_data`, lines 2859-2893) -/

/-- `status_mapping` (lines 126-132). -/
def status_mapping : List (String × String) :=
  [("rew_own_fix", "手直し　"),
   ("rew_material", "材料不良"),
   ("rew_process", "加工不良"),
   ("rew_equipm", "設備不良"),
   ("rework", "手戻手直")]

/-- The regex `^P[A-Z0-9]{4}$` of dispatch branch 3 (line 2870). -/
def process_pattern (qr : String) : Bool :=
  match qr.data with
  | 'P' :: rest =>
      rest.length == 4 &&
        rest.all (fun ch => (decide ('A' ≤ ch) && decide (ch ≤ 'Z')) || ch.isDigit)
  | _ => false

/-- The regex `^WCD(\d+)$` of dispatch branch 4 (lines 2248, 2874),
returning the captured digit group. -/
def wcd_match (qr : String) : Option String :=
  match qr.data with
  | 'W' :: 'C' :: 'D' :: rest =>
      if 0 < rest.length ∧ rest.all (fun ch => ch.isDigit) then
        some (String.mk rest)
      else none
  | _ => none

/-- `qr_cd.startswith("ID:")` of dispatch branch 5 (lines 2878, 2385). -/
def starts_with_id (qr : String) : Bool :=
  qr.data.take 3 == ['I', 'D', ':']

/-- The guard of `handle_end_or_same_qr` (lines 2014-2026): a previous
accepted instruction exists and the scan is the sentinel or repeats it. -/
def end_or_same_matches (qr : String) (prev : Option String) : Bool :=
  match prev with
  | none => false
  | some p => qr == "END*END*END" || qr == p

/-- Where `process_data` sends one line, including the possibility that the
dispatch itself raises. -/
inductive DispatchOutcome where
  | endOrSame
  | statusQr
  | processQr
  | workerQr
  | indirectQr
  | switchQr
  | standardQr
  | fallbackQr
  | raisedTypeError
deriving DecidableEq, Repr

/-- The branch structure of `process_data` (lines 2859-2893).  Branch 8
(`handle_error_qr`, line 2893) is reachable only if `extract_info` returns a
falsy value without raising; since the failure path of `extract_info` raises
`TypeError` (stale two-argument `handle_error_qr` call, line 884), no arm
here produces `fallbackQr`. -/
def classify_qr (qr : String) (prev : Option String) : DispatchOutcome :=
  if end_or_same_matches qr prev then DispatchOutcome.endOrSame
  else if (List.lookup qr status_mapping).isSome then DispatchOutcome.statusQr
  else if process_pattern qr then DispatchOutcome.processQr
  else if (wcd_match qr).isSome then DispatchOutcome.workerQr
  else if starts_with_id qr then DispatchOutcome.indirectQr
  else
    match extract_info qr with
    | ExtractResult.ok _ _ =>
        if prev.isSome then DispatchOutcome.switchQr else DispatchOutcome.standardQr
    | ExtractResult.raiseArityError => DispatchOutcome.raisedTypeError

/-! ## Check-number display formatting (`make_check_no_lcd`, lines 1243-1257) -/

/-- `make_check_no_lcd` (lines 1243-1257).  The argument is `none` for a
Python `None`; the result is `none` when the Python function falls through
to its bare `return`. -/
def make_check_no_lcd (check_no : Option String) : Option String :=
  match check_no with
  | none => some "      "
  | some s =>
      if s.data.length = 0 then some "      "
      else if s.data.length ≤ 6 then some s
      else if 11 ≤ s.data.length then some (String.mk ((s.data.drop 5).take 6))
      else none

/-! ## Timer stop and start: state effects (lines 1576-1683, 1687-1786) -/

/-- The `current_state` mutation performed by `stop_lcd_timer`
(lines 1736-1754) for a port already present in `current_state`: freeze the
timer at the elapsed value, mark the session ended, clear `start_time`. -/
def stop_lcd_timer_state (now : Nat) (st : PortState) : PortState :=
  let final_timer :=
    match st.start_time with
    | some t => fmt_timer (now - t)
    | none => "00:00"
  { st with
      status := Status.ended
      timer := final_timer
      start_time := none
      show_blink := false }

/-- The `current_state` mutation performed by `start_lcd_timer`
(lines 1656-1669): a fresh `WORKING` session starting now, timer `00:00`.
The display-label cache fields refreshed from the store are abstracted by
the `worker_lcd_val` / `process_lcd_val` / `check_no_lcd_val` inputs. -/
def start_lcd_timer_state (now : Nat) (qr : String)
    (worker_lcd_val process_lcd_val : String)
    (check_no : Option String) (check_no_lcd_val : String)
    (st : PortState) : PortState :=
  { st with
      qr_cd := some qr
      worker_lcd := worker_lcd_val
      process_lcd := process_lcd_val
      check_no := check_no
      check_no_lcd := check_no_lcd_val
      start_time := some now
      timer := "00:00"
      status := Status.working }

/-- `lcd_timer_generations[port] = lcd_timer_generations.get(port, 0) + 1`
performed by `start_lcd_timer` (lines 1596-1597); returns the updated map
and the generation captured by the newly spawned task. -/
def start_lcd_timer_gen (gens : String → Nat) (port : String) : (String → Nat) × Nat :=
  let g := gens port + 1
  (fun q => if q = port then g else gens q, g)

/-! ## Display timer loop (`lcd_timer_updater`, lines 1261-1377) -/

/-- `_pick_pair_display_name` (lines 1881-1887): alternate the two worker
names on a coarse 2-second wall-clock bucket. -/
def pick_pair_display_name (now : Nat) (fw sw : String) : String :=
  if sw == "" then fw
  else if (now / 2) % 2 == 0 then fw else sw

/-- What one iteration of the `while True` loop of `lcd_timer_updater`
observes of the shared environment at its head: the stop event, the live
generation entry (`lcd_timer_generations.get(display_port)`, an absent entry
being `none`), and the state/pair snapshots taken under `port_lock`.
`state_absent` and `lcd_absent` model the two wait-and-continue guards
(lines 1294-1317). -/
structure TimerObs where
  stop_set : Bool
  live_gen : Option Nat
  state_absent : Bool
  lcd_absent : Bool
  status : Status
  start_time : Option Nat
  now : Nat
  frozen_timer : String
  pair_mode : Bool
  worker_lcd : String
  worker2_lcd : String
deriving Repr

/-- The change-detection memory of the loop (`last_timer_str`,
`last_display_worker`, `last_mode`, lines 1272-1274, initially `None`). -/
structure TimerMemo where
  last_timer_str : Option String
  last_display_worker : Option String
  last_mode : Option Bool
deriving DecidableEq, Repr

/-- Initial memo of a freshly spawned task. -/
def init_timer_memo : TimerMemo :=
  { last_timer_str := none, last_display_worker := none, last_mode := none }

/-- Outcome of one loop iteration: exit the task, continue without
rendering, or render (`_lcd_update_full`) the given timer/worker strings. -/
inductive IterAct where
  | exit
  | skip
  | render : String → String → IterAct
deriving DecidableEq, Repr

/-- One iteration of `lcd_timer_updater` (lines 1278-1370): stop-event
check, generation double-check, snapshot guards, elapsed-time computation,
pair-name alternation, and render-only-on-change.  `gen` is the generation
captured at spawn; `fallback_start` is `start_ts_fallback` (line 1271). -/
def timer_iteration (gen fallback_start : Nat) (memo : TimerMemo) (o : TimerObs) :
    IterAct × TimerMemo :=
  if o.stop_set then (IterAct.exit, memo)
  else if o.live_gen ≠ some gen then (IterAct.exit, memo)
  else if o.state_absent then (IterAct.skip, memo)
  else if o.lcd_absent then (IterAct.skip, memo)
  else
    let timer_str :=
      if o.status = Status.working then
        fmt_timer (o.now - (o.start_time.getD fallback_start))
      else o.frozen_timer
    let display_worker :=
      if o.pair_mode ∧ o.worker2_lcd ≠ "" then
        pick_pair_display_name o.now o.worker_lcd o.worker2_lcd
      else o.worker_lcd
    if some timer_str ≠ memo.last_timer_str ∨
        some display_worker ≠ memo.last_display_worker ∨
        memo.last_mode ≠ some o.pair_mode then
      (IterAct.render timer_str display_worker,
       { last_timer_str := some timer_str
         last_display_worker := some display_worker
         last_mode := some o.pair_mode })
    else (IterAct.skip, memo)

/-- Run of the loop over a sequence of loop-head observations, collecting
the renders actually performed until the task exits. -/
def run_timer (gen fallback_start : Nat) : TimerMemo → List TimerObs → List (String × String)
  | _, [] => []
  | memo, o :: rest =>
      match timer_iteration gen fallback_start memo o with
      | (IterAct.exit, _) => []
      | (IterAct.skip, m) => run_timer gen fallback_start m rest
      | (IterAct.render t w, m) => (t, w) :: run_timer gen fallback_start m rest

/-! ## Persistence environment -/

/-- Injected behaviour of the persistence layer for one handler run.  A
`true` flag means the corresponding transactional unit raises
(`SQLAlchemyError` or the like) instead of committing. -/
structure DbEnv where
  close_raises : Bool
  close_rows : Nat
  open_raises : Bool
deriving DecidableEq, Repr

/-! ## End-or-same handler (`handle_end_or_same_qr`, lines 2001-2092) -/

/-- How `handle_end_or_same_qr` returned: `notHandled` is its `return False`
paths (no previous instruction, or no match); `handled` is `return True`;
`raisedDbError` is the persistence failure re-raised at lines 2057/2077
after `log_qr_fallback` — the session-state mutation has already happened. -/
inductive EndOutcome where
  | notHandled
  | handled
  | raisedDbError
deriving DecidableEq, Repr

/-- `handle_end_or_same_qr` (lines 2001-2092) restricted to its session
state effect.  On a match it first runs `stop_lcd_timer` (line 2031) and
then re-asserts `status = STATUS_ENDED` (line 2032); only afterwards does it
touch the store, so a persistence failure leaves the ENDED state applied. -/
def handle_end_or_same_qr (env : DbEnv) (now : Nat) (qr : String)
    (prev : Option String) (st : PortState) : PortState × EndOutcome :=
  match prev with
  | none => (st, EndOutcome.notHandled)
  | some p =>
      if qr = "END*END*END" ∨ qr = p then
        let st1 := stop_lcd_timer_state now st
        let st2 := { st1 with status := Status.ended }
        if env.close_raises then (st2, EndOutcome.raisedDbError)
        else (st2, EndOutcome.handled)
      else (st, EndOutcome.notHandled)

/-! ## Switch handler (`handle_switch_qr`, lines 2516-2640) -/

/-- Result of one `handle_switch_qr` run.  `open_attempted` records whether
the insert of the new record (`insert_data`, line 2589) was reached;
`raised` whether an exception escaped the handler; `fallback_audited`
whether `log_qr_fallback` wrote an audit line; `last_qr` the port entry of
`last_qr_codes` afterwards. -/
structure SwitchResult where
  state : PortState
  last_qr : Option String
  open_attempted : Bool
  raised : Bool
  fallback_audited : Bool
deriving Repr

/-- `handle_switch_qr` (lines 2516-2640).  The close of the previous
record (lines 2541-2577) and the open of the new one (lines 2580-2621) are
separate try blocks, but the close block ends in `raise` (line 2577): a
persistence error during close rolls back, audit-logs and re-raises, so the
open block is never reached.  On the success path the new open consumes
`rework_status`, starts the timer and updates `last_qr_codes` (line 2640). -/
def handle_switch_qr (env : DbEnv) (now : Nat) (qr : String)
    (prev : Option String) (st : PortState) : SwitchResult :=
  match prev with
  | none => { state := st, last_qr := prev, open_attempted := false,
              raised := false, fallback_audited := false }
  | some p =>
      let st1 := stop_lcd_timer_state now st
      if env.close_raises then
        { state := st1, last_qr := some p, open_attempted := false,
          raised := true, fallback_audited := true }
      else
        match extract_info qr with
        | ExtractResult.raiseArityError =>
            { state := st1, last_qr := some p, open_attempted := false,
              raised := true, fallback_audited := true }
        | ExtractResult.ok _ _ =>
            let st2 := { st1 with rework_status := none }
            if env.open_raises then
              { state := st2, last_qr := some p, open_attempted := true,
                raised := true, fallback_audited := true }
            else
              let st3 := start_lcd_timer_state now qr st2.worker_lcd st2.process_lcd
                st2.check_no st2.check_no_lcd st2
              { state := st3, last_qr := some qr, open_attempted := true,
                raised := false, fallback_audited := false }

/-! ## Status/rework handler (`handle_status_qr`, lines 2096-2158) -/

/-- Result of `handle_status_qr`: the session state, the status label of
the latest open record afterwards (`none` when no record is open), and
whether the direct-update-and-commit path ran. -/
structure StatusResult where
  state : PortState
  record : Option String
  direct : Bool
deriving DecidableEq, Repr

/-- `handle_status_qr` (lines 2096-2158).  `record` is the status label of
the latest open `Production` row for the port (the query at lines
2114-2123), `none` when that query finds nothing.  The direct update runs
only when a record was found AND the session status is `STATUS_WORKING`
(line 2126); every other case stores the label in `rework_status`
(line 2134). -/
def handle_status_qr (qr : String) (record : Option String) (st : PortState) :
    StatusResult :=
  let status_label := (List.lookup qr status_mapping).getD qr
  if record.isSome ∧ st.status = Status.working then
    { state := { st with rework_status := none }
      record := some status_label
      direct := true }
  else
    { state := { st with rework_status := some status_label }
      record := record
      direct := false }

/-! ## Worker handler pair logic (`handle_worker_qr`, lines 2248-2312) -/

/-- The pair-window update and worker assignment of `handle_worker_qr`
(lines 2253-2312), given the already-captured digit group `w`, the current
wall clock `now`, the pair state and the current worker assignment.
Returns the new pair state and the new `worker_cd` / `worker2_cd`. -/
def handle_worker_qr_update (now : Nat) (w : String) (ps : PairState)
    (w1 w2 : Option String) : PairState × Option String × Option String :=
  let recent0 :=
    match ps.last_worker_ts with
    | some ts => if now - ts > 5 then [] else ps.recent_workers
    | none => ps.recent_workers
  let recent1 := recent0 ++ [w]
  let recent := recent1.drop (recent1.length - 3)
  let ps1 : PairState :=
    { ps with recent_workers := recent, last_worker_ts := some now }
  if ps.pair_mode = false then
    match recent with
    | [a] => ({ ps1 with pair_mode := false }, some a, none)
    | [a, b] => ({ ps1 with pair_mode := true }, some a, some b)
    | [a, _, c] => ({ ps1 with pair_mode := true }, some a, some c)
    | _ => (ps1, w1, w2)
  else
    match recent with
    | [a] => ({ ps1 with pair_mode := false }, some a, none)
    | [a, b] => ({ ps1 with pair_mode := true }, some a, some b)
    | _ => (ps1, w1, w2)

/-- `handle_worker_qr` (lines 2234-2312) restricted to pair state and
worker assignment: the regex guard (line 2248) followed by the window
update; a non-matching payload leaves everything unchanged. -/
def handle_worker_qr (now : Nat) (qr : String) (ps : PairState)
    (w1 w2 : Option String) : PairState × Option String × Option String :=
  match wcd_match qr with
  | none => (ps, w1, w2)
  | some w => handle_worker_qr_update now w ps w1 w2

/-! ## Indirect-work handler (`handle_indirect_qr`, lines 2371-2512) -/

/-- Injected collaborators of `handle_indirect_qr`: the
`IndirectWorkMaster` lookup result (`record_name`, `lcd_label`) and the
`factory_cd` / `worker_cd` / `process_cd` configuration defaults. -/
structure IndirectEnv where
  master : String → Option (String × String)
  config_factory_cd : Option String
  config_worker_cd : String
  config_process_cd : String
  insert_raises : Bool
deriving Inhabited

/-- Result of `handle_indirect_qr`: the updated `last_qr_codes` entry for
every port, the session state, and whether the handler returned `True`. -/
structure IndirectResult where
  last_qr_codes : String → Option String
  state : PortState
  handled : Bool
  raised : Bool

/-- `handle_indirect_qr` (lines 2371-2512).  Line 2383 sets
`last_qr_codes[port] = qr_cd` unconditionally, before the `"ID:"` prefix
check; the rest never reads `last_qr_codes`.  On the main path it resolves
the indirect-work master row, inserts the record(s) and starts the timer
(status forced to WORKING); `rework_status` is ignored. -/
def handle_indirect_qr (env : IndirectEnv) (now : Nat) (qr port : String)
    (last_qr_codes : String → Option String) (st : PortState) : IndirectResult :=
  let last1 := fun q => if q = port then some qr else last_qr_codes q
  if ¬ starts_with_id qr then
    { last_qr_codes := last1, state := st, handled := false, raised := false }
  else
    let afterColon := (qr.data.drop 3)
    let indirect_code := String.mk (afterColon.takeWhile (fun c => c != '-'))
    let labels :=
      match env.master indirect_code with
      | some row =>
          let raw := (row.2.data.reverse.dropWhile (fun c : Char => c.isWhitespace)).reverse
          (row.1, String.mk ((raw.take 6) ++
            List.replicate (6 - (raw.take 6).length) ' '))
      | none => ("間接作業", "間接　   ")
    let worker_cd := st.worker_cd.getD env.config_worker_cd
    let process_cd := st.process_cd.getD env.config_process_cd
    let st1 := { st with
      worker_cd := some worker_cd
      process_cd := some process_cd
      check_no_lcd := labels.2 }
    if env.insert_raises then
      { last_qr_codes := last1, state := st1, handled := false, raised := true }
    else
      let st2 := start_lcd_timer_state now qr st1.worker_lcd st1.process_lcd
        (some "") st1.check_no_lcd st1
      { last_qr_codes := last1, state := st2, handled := true, raised := false }

/-! ## Theorems -/

/-- C10: `make_check_no_lcd` returns `None` for check numbers of length 7
through 10, returns inputs of length at most 6 unchanged, returns
characters 6 through 11 (0-based slice `[5:11]`) of inputs of length at
least 11, and returns six spaces for an empty or missing input. -/
theorem make_check_no_lcd_spec (s : String) :
    (7 ≤ s.data.length ∧ s.data.length ≤ 10 → make_check_no_lcd (some s) = none) ∧
    (1 ≤ s.data.length ∧ s.data.length ≤ 6 → make_check_no_lcd (some s) = some s) ∧
    (11 ≤ s.data.length →
      make_check_no_lcd (some s) = some (String.mk ((s.data.drop 5).take 6))) ∧
    make_check_no_lcd none = some "      " ∧
    make_check_no_lcd (some "") = some "      " := by
  have hred : make_check_no_lcd (some s) =
      (if s.data.length = 0 then some "      "
       else if s.data.length ≤ 6 then some s
       else if 11 ≤ s.data.length then some (String.mk ((s.data.drop 5).take 6))
       else none) := rfl
  refine ⟨?_, ?_, ?_, rfl, rfl⟩
  · intro h
    rw [hred, if_neg (by omega), if_neg (by omega), if_neg (by omega)]
  · intro h
    rw [hred, if_neg (by omega), if_pos (by omega)]
  · intro h
    rw [hred, if_neg (by omega), if_neg (by omega), if_pos (by omega)]

/-- Witness for C10 at concrete inputs of each length class. -/
theorem make_check_no_lcd_spec_witness :
    make_check_no_lcd (some "1234567") = none ∧
    make_check_no_lcd (some "123") = some "123" ∧
    make_check_no_lcd (some "12345678901") =
      some (String.mk (("12345678901".data.drop 5).take 6)) :=
  ⟨(make_check_no_lcd_spec "1234567").1 (by decide),
   (make_check_no_lcd_spec "123").2.1 (by decide),
   (make_check_no_lcd_spec "12345678901").2.2.1 (by decide)⟩

/-- C2: for every port state (any prior status including RETRY) with a last
accepted instruction `p`, scanning the sentinel `END*END*END` or a repeat of
`p` drives the session status to ENDED and clears `start_time`, whether or
not the persistence close succeeds. -/
theorem handle_end_or_same_qr_sets_ended (env : DbEnv) (now : Nat) (qr p : String)
    (st : PortState) (h : qr = "END*END*END" ∨ qr = p) :
    (handle_end_or_same_qr env now qr (some p) st).1.status = Status.ended ∧
    (handle_end_or_same_qr env now qr (some p) st).1.start_time = none := by
  unfold handle_end_or_same_qr
  dsimp only
  rw [if_pos h]
  by_cases hc : env.close_raises = true <;>
    simp [hc, stop_lcd_timer_state]

/-- Witness for C2: prior status RETRY, a pending start time, a failing
close: the sentinel still flips the session to ENDED with no start time. -/
theorem handle_end_or_same_qr_sets_ended_witness :
    (handle_end_or_same_qr ⟨true, 0, false⟩ 100 "END*END*END" (some "Q1")
        { init_current_state with status := Status.retry, start_time := some 40 }).1.status
      = Status.ended ∧
    (handle_end_or_same_qr ⟨true, 0, false⟩ 100 "END*END*END" (some "Q1")
        { init_current_state with status := Status.retry, start_time := some 40 }).1.start_time
      = none :=
  handle_end_or_same_qr_sets_ended ⟨true, 0, false⟩ 100 "END*END*END" "Q1"
    { init_current_state with status := Status.retry, start_time := some 40 } (Or.inl rfl)

/-- C1 counterexample: with a persistence failure injected on close only,
the switch handler does NOT attempt the open of the new record — it
rolls back, audit-logs and re-raises (prodtrac.py line 2577). -/
theorem handle_switch_qr_close_failure_blocks_open :
    (handle_switch_qr ⟨true, 1, false⟩ 100 "NEWQR" (some "OLDQR")
        init_current_state).open_attempted = false ∧
    (handle_switch_qr ⟨true, 1, false⟩ 100 "NEWQR" (some "OLDQR")
        init_current_state).raised = true :=
  ⟨rfl, rfl⟩

/-- C1 amended: a persistence failure during the close phase of a switch
scan aborts the handler (rollback, fallback audit line, re-raise) without
attempting the open; the open is attempted exactly when the close phase
commits and the re-run field extraction succeeds. -/
theorem handle_switch_qr_close_failure_spec (env : DbEnv) (now : Nat) (qr p : String)
    (st : PortState) :
    (env.close_raises = true →
      (handle_switch_qr env now qr (some p) st).open_attempted = false ∧
      (handle_switch_qr env now qr (some p) st).raised = true ∧
      (handle_switch_qr env now qr (some p) st).fallback_audited = true) ∧
    (env.close_raises = false →
      (handle_switch_qr env now qr (some p) st).open_attempted =
        (extract_info qr).isOk) := by
  unfold handle_switch_qr
  constructor
  · intro hc
    simp [hc]
  · intro hc
    simp only [hc]
    cases hex : extract_info qr with
    | raiseArityError => simp [ExtractResult.isOk]
    | ok d t =>
        simp only [ExtractResult.isOk]
        by_cases ho : env.open_raises = true <;> simp [ho]

/-- Witness for C1 amended, at a failing close and at a committing close. -/
theorem handle_switch_qr_close_failure_spec_witness :
    ((handle_switch_qr ⟨true, 1, false⟩ 5 "N" (some "P")
        init_current_state).open_attempted = false ∧
     (handle_switch_qr ⟨true, 1, false⟩ 5 "N" (some "P")
        init_current_state).raised = true ∧
     (handle_switch_qr ⟨true, 1, false⟩ 5 "N" (some "P")
        init_current_state).fallback_audited = true) ∧
    (handle_switch_qr ⟨false, 1, false⟩ 5 "N" (some "P")
        init_current_state).open_attempted = (extract_info "N").isOk :=
  ⟨(handle_switch_qr_close_failure_spec ⟨true, 1, false⟩ 5 "N" "P"
      init_current_state).1 rfl,
   (handle_switch_qr_close_failure_spec ⟨false, 1, false⟩ 5 "N" "P"
      init_current_state).2 rfl⟩

/-- C7 counterexample: a record is open (`some "operation"`) but the
session status is ENDED, so the handler does NOT update the record; it
stores the label in `rework_status` instead (the direct path at line 2126
additionally requires `status == STATUS_WORKING`). -/
theorem handle_status_qr_open_record_not_updated :
    (handle_status_qr "rework" (some "operation")
        { init_current_state with status := Status.ended }).direct = false ∧
    (handle_status_qr "rework" (some "operation")
        { init_current_state with status := Status.ended }).record = some "operation" ∧
    (handle_status_qr "rework" (some "operation")
        { init_current_state with status := Status.ended }).state.rework_status
      = some "手戻手直" :=
  ⟨rfl, rfl, rfl⟩

/-- C7 amended: the direct update-and-commit of the open record happens
exactly when a record is open AND the session status is WORKING; in every
other case (no open record, or any non-WORKING status) the label is stored
in the one-shot `rework_status` and the record is left untouched. -/
theorem handle_status_qr_spec (qr : String) (record : Option String) (st : PortState) :
    (record.isSome = true → st.status = Status.working →
      (handle_status_qr qr record st).direct = true ∧
      (handle_status_qr qr record st).record =
        some ((List.lookup qr status_mapping).getD qr) ∧
      (handle_status_qr qr record st).state.rework_status = none) ∧
    (record.isSome = false ∨ st.status ≠ Status.working →
      (handle_status_qr qr record st).direct = false ∧
      (handle_status_qr qr record st).record = record ∧
      (handle_status_qr qr record st).state.rework_status =
        some ((List.lookup qr status_mapping).getD qr)) := by
  unfold handle_status_qr
  constructor
  · intro h1 h2
    rw [if_pos ⟨h1, h2⟩]
    exact ⟨rfl, rfl, rfl⟩
  · intro h
    rw [if_neg ?_]
    · exact ⟨rfl, rfl, rfl⟩
    · rcases h with h | h
      · exact fun hx => by rw [h] at hx; exact Bool.false_ne_true hx.1
      · exact fun hx => h hx.2

/-- Witness for C7 amended: the WORKING direct path and the ENDED pending
path at concrete inputs. -/
theorem handle_status_qr_spec_witness :
    ((handle_status_qr "rework" (some "operation")
        { init_current_state with status := Status.working }).direct = true ∧
     (handle_status_qr "rework" (some "operation")
        { init_current_state with status := Status.working }).record =
        some ((List.lookup "rework" status_mapping).getD "rework") ∧
     (handle_status_qr "rework" (some "operation")
        { init_current_state with status := Status.working }).state.rework_status = none) ∧
    ((handle_status_qr "rework" none
        { init_current_state with status := Status.working }).direct = false ∧
     (handle_status_qr "rework" none
        { init_current_state with status := Status.working }).record = none ∧
     (handle_status_qr "rework" none
        { init_current_state with status := Status.working }).state.rework_status =
        some ((List.lookup "rework" status_mapping).getD "rework")) :=
  ⟨(handle_status_qr_spec "rework" (some "operation")
      { init_current_state with status := Status.working }).1 rfl rfl,
   (handle_status_qr_spec "rework" none
      { init_current_state with status := Status.working }).2 (Or.inl rfl)⟩

/-- C8 counterexample: the indirect-work handler overwrites the port entry
of `last_qr_codes` with the scanned payload (line 2383), so
`LastAcceptedInstruction` does not stay unchanged: here it was absent
before the scan and holds the payload afterwards. -/
theorem handle_indirect_qr_overwrites_last :
    (handle_indirect_qr ⟨fun _ => none, none, "000000", "PX000", false⟩ 7
        "ID:A01-F1" "P1" (fun _ => none) init_current_state).last_qr_codes "P1"
      = some "ID:A01-F1" := by
  decide

/-- C8 amended: the indirect-work handler never reads
`LastAcceptedInstruction` — its session-state result is the same whatever
the prior map held — but it unconditionally sets the port's entry to the
scanned payload (even before the `"ID:"` prefix check), leaving other
ports' entries unchanged. -/
theorem handle_indirect_qr_last_spec (env : IndirectEnv) (now : Nat)
    (qr port q : String) (lastA lastB : String → Option String) (st : PortState) :
    ((handle_indirect_qr env now qr port lastA st).last_qr_codes q =
      if q = port then some qr else lastA q) ∧
    (handle_indirect_qr env now qr port lastA st).state =
      (handle_indirect_qr env now qr port lastB st).state ∧
    (handle_indirect_qr env now qr port lastA st).handled =
      (handle_indirect_qr env now qr port lastB st).handled ∧
    (handle_indirect_qr env now qr port lastA st).raised =
      (handle_indirect_qr env now qr port lastB st).raised := by
  unfold handle_indirect_qr
  by_cases hp : starts_with_id qr = true <;>
    by_cases hi : env.insert_raises = true <;>
      simp [hp, hi]

/-- C3: evaluating the worker handler on the claim's failing input — scans
WCD1 at 0s, WCD2 at 1s, WCD3 at 2s, all within the 5-second window — shows
the third scan does NOT rotate the partner: the state stays pair
(first, second) = ("1", "2"), not pair ("1", "3") as the spec states.  The
first-plus-third branch (lines 2291-2296) sits in the `not pair_mode` arm,
which a third in-window scan can never reach because the second scan
already set `pair_mode`. -/
theorem handle_worker_qr_third_scan_no_rotation :
    (let r1 := handle_worker_qr 0 "WCD1" init_pair_state_for_port none none
     let r2 := handle_worker_qr 1 "WCD2" r1.1 r1.2.1 r1.2.2
     let r3 := handle_worker_qr 2 "WCD3" r2.1 r2.2.1 r2.2.2
     r3.1.pair_mode = true ∧ r3.1.recent_workers = ["1", "2", "3"] ∧
       r3.2.1 = some "1" ∧ r3.2.2 = some "2" ∧ r3.2.2 ≠ some "3") := by
  decide

/-- Shape of the trailing-three window: appending one element and keeping
the last three (`lst[-3:]`) always leaves one, two or three elements. -/
theorem last3_shape (l : List String) (w : String) :
    (∃ a, (l ++ [w]).drop ((l ++ [w]).length - 3) = [a]) ∨
    (∃ a b, (l ++ [w]).drop ((l ++ [w]).length - 3) = [a, b]) ∨
    (∃ a b c, (l ++ [w]).drop ((l ++ [w]).length - 3) = [a, b, c]) := by
  have h1 : 1 ≤ ((l ++ [w]).drop ((l ++ [w]).length - 3)).length := by
    rw [List.length_drop, List.length_append]
    simp
    omega
  have h3 : ((l ++ [w]).drop ((l ++ [w]).length - 3)).length ≤ 3 := by
    rw [List.length_drop]
    omega
  generalize (l ++ [w]).drop ((l ++ [w]).length - 3) = d at h1 h3 ⊢
  rcases d with _ | ⟨a, _ | ⟨b, _ | ⟨c, _ | ⟨e, tl⟩⟩⟩⟩
  · simp at h1
  · exact Or.inl ⟨a, rfl⟩
  · exact Or.inr (Or.inl ⟨a, b, rfl⟩)
  · exact Or.inr (Or.inr ⟨a, b, c, rfl⟩)
  · simp at h3

/-- Invariant of one pair-window update, for any incoming pair state. -/
theorem handle_worker_qr_update_invariant (now : Nat) (w : String) (ps : PairState)
    (w1 w2 : Option String) :
    ((handle_worker_qr_update now w ps w1 w2).1.pair_mode =
      decide (2 ≤ (handle_worker_qr_update now w ps w1 w2).1.recent_workers.length)) ∧
    (handle_worker_qr_update now w ps w1 w2).1.recent_workers.length ≤ 3 := by
  obtain ⟨pm, ts, rec0⟩ := ps
  cases ts with
  | none =>
      unfold handle_worker_qr_update
      dsimp only
      rcases last3_shape rec0 w with ⟨a, hd⟩ | ⟨a, b, hd⟩ | ⟨a, b, c, hd⟩ <;>
        rw [hd] <;> cases pm <;> simp [hd]
  | some t =>
      unfold handle_worker_qr_update
      dsimp only
      by_cases hg : now - t > 5
      · rw [if_pos hg]
        rcases last3_shape [] w with ⟨a, hd⟩ | ⟨a, b, hd⟩ | ⟨a, b, c, hd⟩ <;>
          rw [hd] <;> cases pm <;> simp [hd]
      · rw [if_neg hg]
        rcases last3_shape rec0 w with ⟨a, hd⟩ | ⟨a, b, hd⟩ | ⟨a, b, c, hd⟩ <;>
          rw [hd] <;> cases pm <;> simp [hd]

/-- C9: after every worker scan (any payload matching `^WCD(\d+)$`, any
incoming pair state), `pair_mode` equals `len(recent_workers) >= 2`
recomputed on the resulting window, and `recent_workers` never holds more
than 3 entries. -/
theorem handle_worker_qr_pair_invariant (now : Nat) (qr w : String) (ps : PairState)
    (w1 w2 : Option String) (h : wcd_match qr = some w) :
    ((handle_worker_qr now qr ps w1 w2).1.pair_mode =
      decide (2 ≤ (handle_worker_qr now qr ps w1 w2).1.recent_workers.length)) ∧
    (handle_worker_qr now qr ps w1 w2).1.recent_workers.length ≤ 3 := by
  unfold handle_worker_qr
  rw [h]
  exact handle_worker_qr_update_invariant now w ps w1 w2

/-- Witness for C9 at a concrete scan on a fresh pair state. -/
theorem handle_worker_qr_pair_invariant_witness :
    ((handle_worker_qr 3 "WCD42" init_pair_state_for_port none none).1.pair_mode =
      decide (2 ≤ (handle_worker_qr 3 "WCD42"
        init_pair_state_for_port none none).1.recent_workers.length)) ∧
    (handle_worker_qr 3 "WCD42" init_pair_state_for_port none none).1.recent_workers.length ≤ 3 :=
  handle_worker_qr_pair_invariant 3 "WCD42" "42" init_pair_state_for_port none none (by decide)

/-- C4: dispatching a malformed payload raises.  `'HELLO'` (and even the
sentinel scanned with no previous instruction) matches no pattern branch,
so the dispatcher evaluates `extract_info`, whose failure path calls
`handle_error_qr("E05", qr_code)` with 2 of its 6 required arguments
(line 884 vs line 2745): the resulting `TypeError` escapes `process_data`
instead of the payload reaching the branch-8 fallback handler. -/
theorem classify_qr_malformed_raises :
    classify_qr "HELLO" none = DispatchOutcome.raisedTypeError ∧
    classify_qr "END*END*END" none = DispatchOutcome.raisedTypeError := by
  constructor <;> decide

/-- Substring of the input at a declared `(offset, length)` position:
python `qr_code[start:start+length]`. -/
def declared_substring (qr : String) (p : Nat × Nat) : String :=
  String.mk ((qr.data.drop p.1).take p.2)

/-- Concatenation of the declared substrings of one field spec — the value
the spec's round-trip property expects the extractor to return. -/
def declared_value (qr : String) : FieldSpec → String
  | FieldSpec.single s l => declared_substring qr (s, l)
  | FieldSpec.multi parts => String.join (parts.map (fun p => declared_substring qr p))

/-- Successful extraction is exactly the declared slice. -/
theorem extract_field_of_le (qr : String) (s l : Nat) (h : s + l ≤ qr.data.length) :
    extract_field qr s l = some (String.mk ((qr.data.drop s).take l)) := by
  unfold extract_field
  rw [if_pos h]

/-- C5: for every input of sufficient total length (259 characters, the
largest declared end position), every field of the `field_mappings` table
comes back as exactly the substring(s) at its declared offsets —
re-concatenation reproduces the original substrings — and an input one
character short of that end position is rejected: the field extract is
`None` and `extract_info` fails rather than silently truncating. -/
theorem extract_info_round_trip (qr : String) :
    (259 ≤ qr.data.length →
      ∀ ks, ks ∈ field_mappings →
        field_value qr ks.2 = some (declared_value qr ks.2)) ∧
    (qr.data.length = 258 →
      extract_field qr 256 3 = none ∧ (extract_info qr).isOk = false) := by
  constructor
  · intro hlen ks hmem
    fin_cases hmem <;>
      simp only [field_value, declared_value, declared_substring, List.map] <;>
      first
        | exact extract_field_of_le qr _ _ (by omega)
        | (rw [extract_field_of_le qr 45 5 (by omega),
               extract_field_of_le qr 20 6 (by omega)]
           simp [List.filterMap])
  · intro hlen
    have hf : extract_field qr 256 3 = none := by
      unfold extract_field
      rw [if_neg (by omega)]
    refine ⟨hf, ?_⟩
    have hv : fields_len_ok qr = false := by
      by_contra hcon
      rw [Bool.not_eq_false] at hcon
      rw [fields_len_ok, List.all_eq_true] at hcon
      have hdb := hcon ("db_bunrui_cd", FieldSpec.single 256 3) (by decide)
      simp only [field_value, hf, got_len, expect_len] at hdb
      exact absurd hdb (by decide)
    unfold extract_info
    dsimp only
    rw [hv]
    simp [ExtractResult.isOk]

/-- Sample 259-character payload (all `A`). -/
def sample_qr_259 : String := String.mk (List.replicate 259 'A')

/-- Sample 258-character payload (one short of the last field's end). -/
def sample_qr_258 : String := String.mk (List.replicate 258 'A')

set_option maxRecDepth 100000 in
/-- Witness for C5: the `juchu_no` field round-trips on the long sample,
and the short sample is rejected. -/
theorem extract_info_round_trip_witness :
    field_value sample_qr_259 (FieldSpec.single 81 11) =
      some (declared_value sample_qr_259 (FieldSpec.single 81 11)) ∧
    extract_field sample_qr_258 256 3 = none ∧
    (extract_info sample_qr_258).isOk = false :=
  ⟨(extract_info_round_trip sample_qr_259).1 (by decide)
      ("juchu_no", FieldSpec.single 81 11) (by decide),
   ((extract_info_round_trip sample_qr_258).2 (by decide)).1,
   ((extract_info_round_trip sample_qr_258).2 (by decide)).2⟩

/-- C6: starting a second timer task increments the port's generation
counter (both in the map and as the new task's captured value), and a task
whose captured generation differs from the live counter at a loop head
exits without performing that or any further render. -/
theorem timer_generation_supersession (gens : String → Nat) (port : String)
    (gen fallback_start : Nat) (memo : TimerMemo) (o : TimerObs) (rest : List TimerObs) :
    ((start_lcd_timer_gen gens port).1 port = gens port + 1 ∧
     (start_lcd_timer_gen gens port).2 = gens port + 1) ∧
    (o.live_gen ≠ some gen → run_timer gen fallback_start memo (o :: rest) = []) := by
  refine ⟨⟨?_, rfl⟩, ?_⟩
  · simp [start_lcd_timer_gen]
  · intro h
    unfold run_timer timer_iteration
    by_cases hs : o.stop_set = true <;> simp [hs, h]

/-- Observation used by the C6 witness: live generation 2 against a task
that captured generation 1. -/
def sample_obs : TimerObs :=
  { stop_set := false, live_gen := some 2, state_absent := false, lcd_absent := false,
    status := Status.working, start_time := none, now := 0, frozen_timer := "00:00",
    pair_mode := false, worker_lcd := "", worker2_lcd := "" }

/-- Witness for C6: a superseded task (captured 1, live 2) renders
nothing. -/
theorem timer_generation_supersession_witness :
    (((start_lcd_timer_gen (fun _ => 0) "P9").1 "P9" = (fun _ : String => 0) "P9" + 1 ∧
      (start_lcd_timer_gen (fun _ => 0) "P9").2 = (fun _ : String => 0) "P9" + 1)) ∧
    run_timer 1 0 init_timer_memo [sample_obs] = [] :=
  ⟨(timer_generation_supersession (fun _ => 0) "P9" 1 0 init_timer_memo sample_obs []).1,
   (timer_generation_supersession (fun _ => 0) "P9" 1 0 init_timer_memo sample_obs []).2
     (by decide)⟩

end Prodtrac
